import Mathlib

/-!
# Verification of townhall-games core components

Shallow embedding of the buzzword-bingo repository: the `BingoCard`
(card generation, marking, win detection), the `BingoGame` round state
machine, the `Session` layer with its event fan-out, the client/server
protocol codec, the relay envelope codec, and the relay multiplexer.

Conventions of the embedding:
* `Math.random()`-driven choices are passed in as a function
  `rand : Nat → Nat`; the Fisher-Yates step `j = floor(random()*(i+1))`
  is modelled as `rand i % (i+1)`, which ranges over exactly `0..i`.
* `randomUUID()` and `Date.now()` are passed in as explicit parameters.
* Thrown `Error`s become `Except String`; a JS method that mutates its
  object becomes a function returning the updated value.
* The JSON wire layer is modelled by an inductive `Json` value type;
  `JSON.parse`/`JSON.stringify` string shuttling is abstracted away and
  codecs work on `Json` trees directly.
-/

namespace Townhall

/-- JS `String.prototype.toLowerCase` restricted to ASCII letters,
modelled over the character list (the repo's word lists and protocol
strings are ASCII). -/
def lowerChar (c : Char) : Char :=
  if 'A' ≤ c ∧ c ≤ 'Z' then Char.ofNat (c.toNat + 32) else c

/-- `word.toLowerCase()`. -/
def jsToLower (s : String) : String := String.mk (s.data.map lowerChar)

/-- `word.trim()`: strip leading and trailing whitespace. -/
def jsTrim (s : String) : String :=
  String.mk (((s.data.dropWhile Char.isWhitespace).reverse.dropWhile Char.isWhitespace).reverse)

/-- Win patterns, from `src/core/types.ts` (`WinPattern`). -/
inductive WinPattern where
  | horizontal (row : Nat)
  | vertical (col : Nat)
  | diagonal (tlbr : Bool)   -- `true` = 'tl-br', `false` = 'tr-bl'
  | corners
deriving DecidableEq, Repr

/-- Word-list cleaning shared by `BingoCard.generate` and the `BingoGame`
constructor: trim each entry, drop empty results, deduplicate
case-insensitively keeping the first occurrence (the `seen` set holds
lowercased entries). -/
def cleanWords (wl : List String) : List String :=
  go [] wl
where
  go (seen : List String) : List String → List String
    | [] => []
    | w :: ws =>
      let t := jsTrim w
      if t.length = 0 then go seen ws
      else if jsToLower t ∈ seen then go seen ws
      else t :: go (jsToLower t :: seen) ws

/-- The destructuring swap `[a[i], a[j]] = [a[j], a[i]]` on a list. -/
def swapCells (l : List String) (i j : Nat) : List String :=
  (l.set i (l.getD j "")).set j (l.getD i "")

/-- The Fisher-Yates loop of `BingoCard.generate`:
`for (i = n-1; i > 0; i--) { j = floor(random()*(i+1)); swap i j }`.
The counter argument is the current `i`. -/
def fisherYatesGo (rand : Nat → Nat) : List String → Nat → List String
  | l, 0 => l
  | l, i + 1 => fisherYatesGo rand (swapCells l (i + 1) (rand (i + 1) % (i + 2))) i

/-- Uniform shuffle of the cleaned word list (`[...cleaned]` copied, then
swapped in place from index `length - 1` down to `1`). -/
def fisherYates (rand : Nat → Nat) (l : List String) : List String :=
  fisherYatesGo rand l (l.length - 1)

/-- The 25-cell row-major content of the generated grid: the double
`r`/`c` loop with its running `idx` lays `selected[0..11]` before the
center, the literal `"FREE"` at `(2,2)` (flat position 12), and
`selected[12..23]` after it. -/
def flatGrid (selected : List String) : List String :=
  selected.take 12 ++ "FREE" :: selected.drop 12

/-- Regroup a 25-cell row-major list into the five grid rows. -/
def toRows (flat : List String) : List (List String) :=
  [flat.take 5, (flat.drop 5).take 5, (flat.drop 10).take 5,
   (flat.drop 15).take 5, (flat.drop 20).take 5]

/-- The all-false mark matrix with only the center `(2,2)` pre-marked
(`Array.from` double loop in `BingoCard.generate`). -/
def initMarked : List (List Bool) :=
  (List.range 5).map fun r => (List.range 5).map fun c => decide (r = 2 ∧ c = 2)

/-- `BingoCard` from `src/core/bingo-card.ts`: identity, owner, 5×5 word
grid and 5×5 mark matrix. -/
structure Card where
  id : String
  playerId : String
  grid : List (List String)
  marked : List (List Bool)
deriving Repr, DecidableEq

namespace Card

/-- Read a grid cell as `this.grid[r][c]` does (out-of-range reads cannot
occur on generated cards; they default to `""`). -/
def cellAt (grid : List (List String)) (r c : Nat) : String :=
  (grid.getD r []).getD c ""

/-- Read a mark cell as `this.marked[r][c]` does. -/
def markAt (marked : List (List Bool)) (r c : Nat) : Bool :=
  (marked.getD r []).getD c false

/-- Set a mark cell, `this.marked[r][c] = true` style. -/
def setMark (marked : List (List Bool)) (r c : Nat) (v : Bool) : List (List Bool) :=
  marked.set r ((marked.getD r []).set c v)

/-- `BingoCard.generate(playerId, wordList)`: clean the list, fail if
fewer than 24 unique words remain, shuffle, take 24, lay out the grid
with the FREE center, pre-mark only the center. -/
def generate (playerId : String) (wordList : List String)
    (rand : Nat → Nat) (uuid : String) : Except String Card :=
  let cleaned := cleanWords wordList
  if cleaned.length < 24 then
    .error s!"Word list must contain at least 24 unique words, got {cleaned.length}"
  else
    let selected := (fisherYates rand cleaned).take 24
    .ok { id := uuid, playerId := playerId,
          grid := toRows (flatGrid selected), marked := initMarked }

/-- Row-major scan of one row for the first cell whose lowercased content
equals the normalized word; returns its column index. -/
def findInRow (row : List String) (norm : String) (c : Nat) : Option Nat :=
  match row with
  | [] => none
  | w :: rest => if jsToLower w = norm then some c else findInRow rest norm (c + 1)

/-- Row-major scan of the whole grid (`markWord`'s nested loops with
early return): first matching `(r, c)`. -/
def findCell (grid : List (List String)) (norm : String) (r : Nat) : Option (Nat × Nat) :=
  match grid with
  | [] => none
  | row :: rest =>
    match findInRow row norm 0 with
    | some c => some (r, c)
    | none => findCell rest norm (r + 1)

/-- `markWord(word)`: trim/lowercase the word, mark the first matching
cell in row-major order and return `true`; return `false` (no change)
when no cell matches. -/
def markWord (card : Card) (word : String) : Bool × Card :=
  let norm := jsToLower (jsTrim word)
  match findCell card.grid norm 0 with
  | some (r, c) => (true, { card with marked := setMark card.marked r c true })
  | none => (false, card)

/-- `getWinningPattern()`, translated clause by clause: rows 0..4, then
columns 0..4, then the tl-br diagonal, the tr-bl diagonal, and
four-corners-plus-center; first hit wins. -/
def winningPattern (m : List (List Bool)) : Option WinPattern :=
  if markAt m 0 0 && markAt m 0 1 && markAt m 0 2 && markAt m 0 3 && markAt m 0 4 then
    some (.horizontal 0)
  else if markAt m 1 0 && markAt m 1 1 && markAt m 1 2 && markAt m 1 3 && markAt m 1 4 then
    some (.horizontal 1)
  else if markAt m 2 0 && markAt m 2 1 && markAt m 2 2 && markAt m 2 3 && markAt m 2 4 then
    some (.horizontal 2)
  else if markAt m 3 0 && markAt m 3 1 && markAt m 3 2 && markAt m 3 3 && markAt m 3 4 then
    some (.horizontal 3)
  else if markAt m 4 0 && markAt m 4 1 && markAt m 4 2 && markAt m 4 3 && markAt m 4 4 then
    some (.horizontal 4)
  else if markAt m 0 0 && markAt m 1 0 && markAt m 2 0 && markAt m 3 0 && markAt m 4 0 then
    some (.vertical 0)
  else if markAt m 0 1 && markAt m 1 1 && markAt m 2 1 && markAt m 3 1 && markAt m 4 1 then
    some (.vertical 1)
  else if markAt m 0 2 && markAt m 1 2 && markAt m 2 2 && markAt m 3 2 && markAt m 4 2 then
    some (.vertical 2)
  else if markAt m 0 3 && markAt m 1 3 && markAt m 2 3 && markAt m 3 3 && markAt m 4 3 then
    some (.vertical 3)
  else if markAt m 0 4 && markAt m 1 4 && markAt m 2 4 && markAt m 3 4 && markAt m 4 4 then
    some (.vertical 4)
  else if markAt m 0 0 && markAt m 1 1 && markAt m 2 2 && markAt m 3 3 && markAt m 4 4 then
    some (.diagonal true)
  else if markAt m 0 4 && markAt m 1 3 && markAt m 2 2 && markAt m 3 1 && markAt m 4 0 then
    some (.diagonal false)
  else if markAt m 0 0 && markAt m 0 4 && markAt m 4 0 && markAt m 4 4 && markAt m 2 2 then
    some .corners
  else
    none

/-- `getWinningPattern()` of a card (reads only the mark matrix). -/
def getWinningPattern (card : Card) : Option WinPattern :=
  winningPattern card.marked

/-- `hasWon()` is `getWinningPattern() !== null`. -/
def hasWon (card : Card) : Bool :=
  (getWinningPattern card).isSome

end Card

/-! ## Spec-side description of the scan order (for the refinement claim
about `getWinningPattern`): the fixed pattern list and the five required
cells of each pattern, following the spec's enumeration "rows 0..4,
columns 0..4, main diagonal, anti-diagonal, four-corners-plus-center". -/

/-- The fixed scan order of patterns, as enumerated by the spec. -/
def allPatterns : List WinPattern :=
  [.horizontal 0, .horizontal 1, .horizontal 2, .horizontal 3, .horizontal 4,
   .vertical 0, .vertical 1, .vertical 2, .vertical 3, .vertical 4,
   .diagonal true, .diagonal false, .corners]

/-- The five required cells of a pattern. -/
def patternCells : WinPattern → List (Nat × Nat)
  | .horizontal r => [(r, 0), (r, 1), (r, 2), (r, 3), (r, 4)]
  | .vertical c => [(0, c), (1, c), (2, c), (3, c), (4, c)]
  | .diagonal true => [(0, 0), (1, 1), (2, 2), (3, 3), (4, 4)]
  | .diagonal false => [(0, 4), (1, 3), (2, 2), (3, 1), (4, 0)]
  | .corners => [(0, 0), (0, 4), (4, 0), (4, 4), (2, 2)]

/-- A pattern is complete when all five of its required cells are marked. -/
def complete (m : List (List Bool)) (p : WinPattern) : Bool :=
  (patternCells p).all fun rc => Card.markAt m rc.1 rc.2

/-! ## BingoGame (`src/core/bingo-game.ts`) -/

/-- Game status. -/
inductive GameStatus where
  | waiting
  | active
  | finished
deriving DecidableEq, Repr

/-- `Winner` from `src/core/types.ts`; `timestamp` is the `Date` as
milliseconds. -/
structure Winner where
  playerId : String
  playerName : String
  pattern : WinPattern
  roundNumber : Nat
  timestamp : Nat
  points : Nat
deriving DecidableEq, Repr

/-- `MarkResult` from `src/core/types.ts` (optional fields as `Option`). -/
structure MarkResult where
  success : Bool
  bingo : Bool
  pattern : Option WinPattern := none
  roundOver : Bool
  winnerId : Option String := none
  winnerName : Option String := none
deriving DecidableEq, Repr

/-- The mutable state of a `BingoGame`; `cards` is the playerId-keyed
`Map` as an insertion-ordered association list. -/
structure Game where
  sessionId : String
  wordList : List String
  status : GameStatus
  currentRound : Nat
  cards : List (String × Card)
  currentWinner : Option Winner
  roundWinners : List Winner
deriving Repr

/-- `Map.get`. -/
def lookupA {κ α : Type} [DecidableEq κ] (l : List (κ × α)) (k : κ) : Option α :=
  (l.find? fun p => p.1 = k).map fun p => p.2

/-- `Map.set`: overwrite in place when the key exists, else append
(JS `Map` keeps the original insertion position on overwrite). -/
def setA {κ α : Type} [DecidableEq κ] (l : List (κ × α)) (k : κ) (v : α) : List (κ × α) :=
  if (lookupA l k).isSome then
    l.map fun p => if p.1 = k then (k, v) else p
  else
    l ++ [(k, v)]

/-- `Map.delete`. -/
def delA {κ α : Type} [DecidableEq κ] (l : List (κ × α)) (k : κ) : List (κ × α) :=
  l.filter fun p => ¬ p.1 = k

namespace BingoGame

/-- The `BingoGame` constructor: validate the word list (≥ 24 unique
cleaned words) and start in `waiting` at round 0 with no cards, no
current winner and no history; the original word list is stored. -/
def create (sessionId : String) (wordList : List String) : Except String Game :=
  if (cleanWords wordList).length < 24 then
    .error s!"Word list must contain at least 24 unique words, got {(cleanWords wordList).length}"
  else
    .ok { sessionId := sessionId, wordList := wordList, status := .waiting,
          currentRound := 0, cards := [], currentWinner := none, roundWinners := [] }

/-- `start()`: only from `waiting`; becomes `active`, round 1. -/
def start (g : Game) : Except String Game :=
  if g.status ≠ .waiting then
    .error "Game can only be started from waiting status"
  else
    .ok { g with status := .active, currentRound := 1 }

/-- `startNewRound()`: only from `finished`; archives the current winner,
clears cards and winner, increments the round, returns to `active`. -/
def startNewRound (g : Game) : Except String Game :=
  if g.status ≠ .finished then
    .error "Can only start a new round after the current round is finished"
  else
    .ok { g with
          roundWinners :=
            match g.currentWinner with
            | some w => g.roundWinners ++ [w]
            | none => g.roundWinners,
          currentWinner := none,
          cards := [],
          currentRound := g.currentRound + 1,
          status := .active }

/-- `generateCardForPlayer(playerId)`: rejected while `waiting`;
otherwise generate a fresh card (which may itself fail validation) and
store it for the player. -/
def generateCardForPlayer (g : Game) (playerId : String)
    (rand : Nat → Nat) (uuid : String) : Except String (Card × Game) :=
  if g.status = .waiting then
    .error "Cannot generate cards before game starts"
  else
    match Card.generate playerId g.wordList rand uuid with
    | .error e => .error e
    | .ok card => .ok (card, { g with cards := setA g.cards playerId card })

/-- `markWord(playerId, word)`: throw while `waiting`; report
`roundOver` without effect when `finished`; fail when the player has no
card; otherwise delegate to the card and, on a winning mark, record the
winner (100 points, current round, now) and flip to `finished`. -/
def markWord (g : Game) (playerId word : String) (now : Nat) :
    Except String (MarkResult × Game) :=
  if g.status = .waiting then
    .error "Cannot mark words before game starts"
  else if g.status = .finished then
    .ok ({ success := false, bingo := false, roundOver := true }, g)
  else
    match lookupA g.cards playerId with
    | none => .ok ({ success := false, bingo := false, roundOver := false }, g)
    | some card =>
      let (marked, card') := card.markWord word
      let g' := { g with cards := setA g.cards playerId card' }
      if marked = false then
        .ok ({ success := false, bingo := false, roundOver := false }, g')
      else
        match card'.getWinningPattern with
        | some pattern =>
          let winner : Winner :=
            { playerId := playerId, playerName := playerId, pattern := pattern,
              roundNumber := g.currentRound, timestamp := now, points := 100 }
          .ok ({ success := true, bingo := true, pattern := some pattern,
                 roundOver := true, winnerId := some playerId,
                 winnerName := some playerId },
               { g' with currentWinner := some winner, status := .finished })
        | none =>
          .ok ({ success := true, bingo := false, roundOver := false }, g')

end BingoGame

/-- The public, possibly-failing operations of a `BingoGame`; the data a
step needs from the environment (random choices, uuids, the clock)
rides on the operation. -/
inductive GameOp where
  | start
  | startNewRound
  | generateCard (playerId : String) (rand : Nat → Nat) (uuid : String)
  | markWord (playerId word : String) (now : Nat)

/-- Apply an operation; a thrown error leaves the game unchanged. -/
def applyOp (g : Game) : GameOp → Game
  | .start =>
    match BingoGame.start g with
    | .ok g' => g'
    | .error _ => g
  | .startNewRound =>
    match BingoGame.startNewRound g with
    | .ok g' => g'
    | .error _ => g
  | .generateCard pid rand uuid =>
    match BingoGame.generateCardForPlayer g pid rand uuid with
    | .ok (_, g') => g'
    | .error _ => g
  | .markWord pid w now =>
    match BingoGame.markWord g pid w now with
    | .ok (_, g') => g'
    | .error _ => g

/-- States reachable from a freshly constructed game by the public
operations. -/
inductive Reachable (g0 : Game) : Game → Prop where
  | init : Reachable g0 g0
  | step {g : Game} (op : GameOp) : Reachable g0 g → Reachable g0 (applyOp g op)

/-- The winner/status invariant: `currentWinner` is non-null iff the
status is `finished`. -/
def WinnerInv (g : Game) : Prop :=
  g.currentWinner.isSome = true ↔ g.status = .finished

/-- The allowed status movements of one operation: stay put, or advance
along waiting →(start)→ active →(winning mark)→ finished
→(startNewRound)→ active. -/
def StatusEdge (op : GameOp) (s s' : GameStatus) : Prop :=
  s' = s ∨
  (s = .waiting ∧ s' = .active ∧ op = .start) ∨
  (s = .active ∧ s' = .finished ∧ ∃ pid w now, op = .markWord pid w now) ∨
  (s = .finished ∧ s' = .active ∧ op = .startNewRound)

/-! ## JSON values and the two wire codecs

The string⇄`Json` shuttling done by `JSON.parse`/`JSON.stringify` is
abstracted away: codecs work on `Json` trees. Numbers are integers (all
numeric fields of the protocol are counts/indices). -/

/-- A JSON value. -/
inductive Json where
  | str (s : String)
  | num (n : Int)
  | bool (b : Bool)
  | null
  | arr (elems : List Json)
  | obj (fields : List (String × Json))
deriving Repr

/-- Field access `obj.field` on a parsed JSON object (`undefined`
becomes `none`; non-objects have no fields, matching
`typeof parsed !== 'object'`-style rejections in the parsers). -/
def jsonField : Json → String → Option Json
  | .obj fields, k => lookupA fields k
  | _, _ => none

/-- Client → server commands (`src/server/protocol.ts`). -/
inductive Command where
  | createSession (words : List String)
  | startGame
  | startNewRound
  | join (screenName : String)
  | markWord (word : String)
deriving DecidableEq, Repr

/-- `PlayerScore` from `src/core/types.ts` (optional `lastWinRound`). -/
structure PlayerScore where
  playerId : String
  screenName : String
  totalPoints : Nat
  roundsWon : Nat
  lastWinRound : Option Nat
deriving DecidableEq, Repr

/-- Server → client events (`src/server/protocol.ts`). -/
inductive ServerEvent where
  | sessionCreated (sessionId : String)
  | joined (playerId screenName gameStatus : String) (round : Nat)
  | cardDealt (roundNumber : Nat) (grid : List (List String)) (marked : List (List Bool))
  | playerJoined (playerId screenName : String) (playerCount : Nat)
  | playerLeft (playerId screenName : String) (playerCount : Nat)
  | markResult (success : Bool) (word : String) (bingo roundOver : Bool)
  | playerWon (winnerName : String) (pattern : WinPattern) (roundNumber : Nat)
  | gameStatus (status : String) (round : Nat)
  | leaderboard (entries : List PlayerScore)
  | error (message : String)
deriving DecidableEq, Repr

/-- The structural JSON encoding of a command, as `JSON.stringify`
produces it on the client. -/
def encodeCommand : Command → Json
  | .createSession words =>
    .obj [("type", .str "create_session"), ("words", .arr (words.map .str))]
  | .startGame => .obj [("type", .str "start_game")]
  | .startNewRound => .obj [("type", .str "start_new_round")]
  | .join screenName => .obj [("type", .str "join"), ("screenName", .str screenName)]
  | .markWord word => .obj [("type", .str "mark_word"), ("word", .str word)]

/-- Decode a JSON value that must be a string. -/
def asString : Json → Option String
  | .str s => some s
  | _ => none

/-- Decode a JSON value that must be a (non-negative) number. -/
def asNat : Json → Option Nat
  | .num n => if n < 0 then none else some n.toNat
  | _ => none

/-- Decode a JSON value that must be a boolean. -/
def asBool : Json → Option Bool
  | .bool b => some b
  | _ => none

/-- Decode an array whose elements all decode with `f`
(`Array.isArray(x) && x.every(...)` in the source). -/
def asArrayOf {α : Type} (f : Json → Option α) : Json → Option (List α)
  | .arr elems => go elems
  | _ => none
where
  go : List Json → Option (List α)
    | [] => some []
    | j :: js =>
      match f j, go js with
      | some a, some rest => some (a :: rest)
      | _, _ => none

/-- `parseCommand(raw)` from `src/server/protocol.ts`: reject
non-objects, require a known string `type`, validate every required
field's primitive type, never coerce. -/
def parseCommand (j : Json) : Option Command :=
  match jsonField j "type" with
  | some (.str t) =>
    if t = "create_session" then
      match (jsonField j "words").bind (asArrayOf asString) with
      | some words => some (.createSession words)
      | none => none
    else if t = "start_game" then some .startGame
    else if t = "start_new_round" then some .startNewRound
    else if t = "join" then
      match (jsonField j "screenName").bind asString with
      | some screenName => some (.join screenName)
      | none => none
    else if t = "mark_word" then
      match (jsonField j "word").bind asString with
      | some word => some (.markWord word)
      | none => none
    else none
  | _ => none

/-- Structural JSON encoding of a `WinPattern` (as in `types.ts`). -/
def encodeWinPattern : WinPattern → Json
  | .horizontal row => .obj [("type", .str "horizontal"), ("row", .num row)]
  | .vertical col => .obj [("type", .str "vertical"), ("col", .num col)]
  | .diagonal d =>
    .obj [("type", .str "diagonal"),
          ("direction", .str (if d then "tl-br" else "tr-bl"))]
  | .corners => .obj [("type", .str "corners")]

/-- Structural decoding of a `WinPattern` (inverse reading of the same
shape; the clients read these fields structurally). -/
def decodeWinPattern (j : Json) : Option WinPattern :=
  match jsonField j "type" with
  | some (.str t) =>
    if t = "horizontal" then
      match (jsonField j "row").bind asNat with
      | some row => some (.horizontal row)
      | none => none
    else if t = "vertical" then
      match (jsonField j "col").bind asNat with
      | some col => some (.vertical col)
      | none => none
    else if t = "diagonal" then
      match (jsonField j "direction").bind asString with
      | some "tl-br" => some (.diagonal true)
      | some "tr-bl" => some (.diagonal false)
      | _ => none
    else if t = "corners" then some .corners
    else none
  | _ => none

/-- Structural JSON encoding of a `PlayerScore`; an absent
`lastWinRound` drops the key, exactly as `JSON.stringify` drops
`undefined` fields. -/
def encodePlayerScore (s : PlayerScore) : Json :=
  .obj ([("playerId", .str s.playerId), ("screenName", .str s.screenName),
         ("totalPoints", .num s.totalPoints), ("roundsWon", .num s.roundsWon)] ++
        (match s.lastWinRound with
         | some r => [("lastWinRound", Json.num r)]
         | none => []))

/-- Structural decoding of a `PlayerScore`. -/
def decodePlayerScore (j : Json) : Option PlayerScore :=
  match (jsonField j "playerId").bind asString,
        (jsonField j "screenName").bind asString,
        (jsonField j "totalPoints").bind asNat,
        (jsonField j "roundsWon").bind asNat with
  | some playerId, some screenName, some totalPoints, some roundsWon =>
    match jsonField j "lastWinRound" with
    | some v =>
      match asNat v with
      | some r => some ⟨playerId, screenName, totalPoints, roundsWon, some r⟩
      | none => none
    | none => some ⟨playerId, screenName, totalPoints, roundsWon, none⟩
  | _, _, _, _ => none

/-- `serializeEvent(event)` is `JSON.stringify(event)`: the structural
JSON encoding of a `ServerEvent`. -/
def serializeEvent : ServerEvent → Json
  | .sessionCreated sessionId =>
    .obj [("type", .str "session_created"), ("sessionId", .str sessionId)]
  | .joined playerId screenName gameStatus round =>
    .obj [("type", .str "joined"), ("playerId", .str playerId),
          ("screenName", .str screenName), ("gameStatus", .str gameStatus),
          ("round", .num round)]
  | .cardDealt roundNumber grid marked =>
    .obj [("type", .str "card_dealt"), ("roundNumber", .num roundNumber),
          ("grid", .arr (grid.map fun row => .arr (row.map .str))),
          ("marked", .arr (marked.map fun row => .arr (row.map .bool)))]
  | .playerJoined playerId screenName playerCount =>
    .obj [("type", .str "player_joined"), ("playerId", .str playerId),
          ("screenName", .str screenName), ("playerCount", .num playerCount)]
  | .playerLeft playerId screenName playerCount =>
    .obj [("type", .str "player_left"), ("playerId", .str playerId),
          ("screenName", .str screenName), ("playerCount", .num playerCount)]
  | .markResult success word bingo roundOver =>
    .obj [("type", .str "mark_result"), ("success", .bool success),
          ("word", .str word), ("bingo", .bool bingo), ("roundOver", .bool roundOver)]
  | .playerWon winnerName pattern roundNumber =>
    .obj [("type", .str "player_won"), ("winnerName", .str winnerName),
          ("pattern", encodeWinPattern pattern), ("roundNumber", .num roundNumber)]
  | .gameStatus status round =>
    .obj [("type", .str "game_status"), ("status", .str status), ("round", .num round)]
  | .leaderboard entries =>
    .obj [("type", .str "leaderboard"), ("entries", .arr (entries.map encodePlayerScore))]
  | .error message =>
    .obj [("type", .str "error"), ("message", .str message)]

/-- Structural decoding of a `ServerEvent`: the repo serializes events
with plain `JSON.stringify` and the browser reads them back with
`JSON.parse`, which inverts the structural encode; this decoder is that
inverse reading, used to state the round-trip property. -/
def parseServerEvent (j : Json) : Option ServerEvent :=
  match jsonField j "type" with
  | some (.str t) =>
    if t = "session_created" then
      match (jsonField j "sessionId").bind asString with
      | some sessionId => some (.sessionCreated sessionId)
      | none => none
    else if t = "joined" then
      match (jsonField j "playerId").bind asString,
            (jsonField j "screenName").bind asString,
            (jsonField j "gameStatus").bind asString,
            (jsonField j "round").bind asNat with
      | some a, some b, some c, some d => some (.joined a b c d)
      | _, _, _, _ => none
    else if t = "card_dealt" then
      match (jsonField j "roundNumber").bind asNat,
            (jsonField j "grid").bind (asArrayOf (asArrayOf asString)),
            (jsonField j "marked").bind (asArrayOf (asArrayOf asBool)) with
      | some r, some grid, some marked => some (.cardDealt r grid marked)
      | _, _, _ => none
    else if t = "player_joined" then
      match (jsonField j "playerId").bind asString,
            (jsonField j "screenName").bind asString,
            (jsonField j "playerCount").bind asNat with
      | some a, some b, some c => some (.playerJoined a b c)
      | _, _, _ => none
    else if t = "player_left" then
      match (jsonField j "playerId").bind asString,
            (jsonField j "screenName").bind asString,
            (jsonField j "playerCount").bind asNat with
      | some a, some b, some c => some (.playerLeft a b c)
      | _, _, _ => none
    else if t = "mark_result" then
      match (jsonField j "success").bind asBool,
            (jsonField j "word").bind asString,
            (jsonField j "bingo").bind asBool,
            (jsonField j "roundOver").bind asBool with
      | some a, some b, some c, some d => some (.markResult a b c d)
      | _, _, _, _ => none
    else if t = "player_won" then
      match (jsonField j "winnerName").bind asString,
            (jsonField j "pattern").bind decodeWinPattern,
            (jsonField j "roundNumber").bind asNat with
      | some a, some b, some c => some (.playerWon a b c)
      | _, _, _ => none
    else if t = "game_status" then
      match (jsonField j "status").bind asString,
            (jsonField j "round").bind asNat with
      | some a, some b => some (.gameStatus a b)
      | _, _ => none
    else if t = "leaderboard" then
      match (jsonField j "entries").bind (asArrayOf decodePlayerScore) with
      | some entries => some (.leaderboard entries)
      | none => none
    else if t = "error" then
      match (jsonField j "message").bind asString with
      | some message => some (.error message)
      | none => none
    else none
  | _ => none

/-- Relay envelopes (`src/relay/relay-protocol.ts`), nine variants. -/
inductive RelayMessage where
  | adminRegister (sessionId secret : String)
  | adminRegistered (sessionId : String)
  | adminError (message : String)
  | playerConnected (connectionId : String)
  | playerDisconnected (connectionId : String)
  | playerRoster (connections : List String)
  | upstream (connectionId command : String)
  | downstream (target event : String)
  | broadcast (event : String)
deriving DecidableEq, Repr

/-- `serializeRelayMessage(msg)` is `JSON.stringify(msg)`: the
structural JSON encoding of an envelope. -/
def serializeRelayMessage : RelayMessage → Json
  | .adminRegister sessionId secret =>
    .obj [("envelope", .str "admin_register"), ("sessionId", .str sessionId),
          ("secret", .str secret)]
  | .adminRegistered sessionId =>
    .obj [("envelope", .str "admin_registered"), ("sessionId", .str sessionId)]
  | .adminError message =>
    .obj [("envelope", .str "admin_error"), ("message", .str message)]
  | .playerConnected connectionId =>
    .obj [("envelope", .str "player_connected"), ("connectionId", .str connectionId)]
  | .playerDisconnected connectionId =>
    .obj [("envelope", .str "player_disconnected"), ("connectionId", .str connectionId)]
  | .playerRoster connections =>
    .obj [("envelope", .str "player_roster"), ("connections", .arr (connections.map .str))]
  | .upstream connectionId command =>
    .obj [("envelope", .str "upstream"), ("connectionId", .str connectionId),
          ("command", .str command)]
  | .downstream target event =>
    .obj [("envelope", .str "downstream"), ("target", .str target),
          ("event", .str event)]
  | .broadcast event =>
    .obj [("envelope", .str "broadcast"), ("event", .str event)]

/-- `parseRelayMessage(raw)` from `src/relay/relay-protocol.ts`:
reject non-objects, switch on the `envelope` string, validate every
required field's type, reject otherwise. -/
def parseRelayMessage (j : Json) : Option RelayMessage :=
  match jsonField j "envelope" with
  | some (.str e) =>
    if e = "admin_register" then
      match (jsonField j "sessionId").bind asString,
            (jsonField j "secret").bind asString with
      | some sessionId, some secret => some (.adminRegister sessionId secret)
      | _, _ => none
    else if e = "admin_registered" then
      match (jsonField j "sessionId").bind asString with
      | some sessionId => some (.adminRegistered sessionId)
      | none => none
    else if e = "admin_error" then
      match (jsonField j "message").bind asString with
      | some message => some (.adminError message)
      | none => none
    else if e = "upstream" then
      match (jsonField j "connectionId").bind asString,
            (jsonField j "command").bind asString with
      | some connectionId, some command => some (.upstream connectionId command)
      | _, _ => none
    else if e = "downstream" then
      match (jsonField j "target").bind asString,
            (jsonField j "event").bind asString with
      | some target, some event => some (.downstream target event)
      | _, _ => none
    else if e = "broadcast" then
      match (jsonField j "event").bind asString with
      | some event => some (.broadcast event)
      | none => none
    else if e = "player_connected" then
      match (jsonField j "connectionId").bind asString with
      | some connectionId => some (.playerConnected connectionId)
      | none => none
    else if e = "player_disconnected" then
      match (jsonField j "connectionId").bind asString with
      | some connectionId => some (.playerDisconnected connectionId)
      | none => none
    else if e = "player_roster" then
      match (jsonField j "connections").bind (asArrayOf asString) with
      | some connections => some (.playerRoster connections)
      | none => none
    else none
  | _ => none

/-! ## Session (`src/core/session.ts`) -/

/-- `Player` from `src/core/types.ts`; `joinedAt` in milliseconds. -/
structure Player where
  id : String
  screenName : String
  joinedAt : Nat
deriving DecidableEq, Repr

/-- A cumulative score entry of the session's `scores` map. -/
structure Score where
  totalPoints : Nat
  roundsWon : Nat
  lastWinRound : Option Nat
deriving DecidableEq, Repr

/-- `GameEvent` union from `src/core/types.ts`. -/
inductive GameEvent where
  | gameStarted (roundNumber : Nat) (playerId : String) (playerCard : Card)
  | playerWon (winnerId winnerName : String) (pattern : WinPattern)
      (roundNumber : Nat) (timestamp : Nat)
  | newRoundStarted (roundNumber : Nat) (playerId : String) (playerCard : Card)
  | playerJoined (playerId screenName : String)
  | playerLeft (playerId screenName : String)
deriving DecidableEq, Repr

/-- A registered event listener: it receives the event and either
returns normally or throws (the `Except.error` carries the thrown
message). -/
def Listener : Type := GameEvent → Except String Unit

/-- One `try { listener(event) } catch { }` iteration of
`Session.emit`: the listener is called; a thrown error is caught and
swallowed (the caught message is the observable outcome). -/
def emitOne (l : Listener) (e : GameEvent) : Option String :=
  match l e with
  | .ok _ => none
  | .error msg => some msg

/-- `Session.emit(event)`: call every listener in subscription order,
catching and discarding per-listener exceptions; returns the list of
caught outcomes, one per listener. -/
def emit (listeners : List Listener) (e : GameEvent) : List (Option String) :=
  listeners.map fun l => emitOne l e

/-- The mutable state of a `Session`. -/
structure SessionState where
  id : String
  wordList : List String
  players : List (String × Player)
  game : Option Game
  listeners : List Listener
  scores : List (String × Score)

/-- Replace the listener array (used to compare runs that differ only
in their subscribed listeners). -/
def setListeners (s : SessionState) (ls : List Listener) : SessionState :=
  { s with listeners := ls }

namespace Session

/-- The `Session` constructor: validates the word list by constructing
a throwaway `BingoGame` (reusing its validation) and starts with no
players, no game, no listeners and no scores. -/
def create (uuid : String) (wordList : List String) : Except String SessionState :=
  match BingoGame.create "validate" wordList with
  | .error e => .error e
  | .ok _ =>
    .ok { id := uuid, wordList := wordList, players := [], game := none,
          listeners := [], scores := [] }

/-- `addPlayer(screenName)`: trim and reject blank names; reject names
matching a currently-joined player case-insensitively; register player
and zero score; emit `player_joined`; when a game exists and is active,
deal the late joiner a card and emit `game_started` for them. -/
def addPlayerCore (s : SessionState) (screenName uuid : String) (now : Nat)
    (rand : Nat → Nat) (cardUuid : String) :
    Except String Player × SessionState × List GameEvent :=
  let trimmed := jsTrim screenName
  if trimmed.length = 0 then
    (.error "Screen name cannot be blank", s, [])
  else if s.players.any fun p => jsToLower p.2.screenName = jsToLower trimmed then
    (.error s!"Screen name \"{trimmed}\" is already taken", s, [])
  else
    let player : Player := { id := uuid, screenName := trimmed, joinedAt := now }
    let s1 := { s with players := setA s.players uuid player,
                       scores := setA s.scores uuid ⟨0, 0, none⟩ }
    let ev1 := GameEvent.playerJoined uuid trimmed
    match s1.game with
    | some game =>
      if game.status = .active then
        match BingoGame.generateCardForPlayer game uuid rand cardUuid with
        | .ok (card, game') =>
          (.ok player, { s1 with game := some game' },
           [ev1, .gameStarted game'.currentRound uuid card])
        | .error e => (.error e, s1, [ev1])
      else (.ok player, s1, [ev1])
    | none => (.ok player, s1, [ev1])

/-- `removePlayer(playerId)`: idempotent no-op when unknown; otherwise
drop the player and their score entry and emit `player_left`. -/
def removePlayerCore (s : SessionState) (playerId : String) :
    Except String Unit × SessionState × List GameEvent :=
  match lookupA s.players playerId with
  | none => (.ok (), s, [])
  | some player =>
    (.ok (), { s with players := delA s.players playerId,
                      scores := delA s.scores playerId },
     [.playerLeft playerId player.screenName])

/-- Deal a fresh card to each listed player in order, emitting one event
per player; a generation failure aborts the loop, keeping the cards and
events of the successful prefix (the JS exception propagates). -/
def dealLoop (g : Game) (ps : List (String × Player))
    (rands : Nat → Nat → Nat) (uuids : Nat → String) (k : Nat)
    (mkEv : String → Card → GameEvent) :
    Game × List GameEvent × Option String :=
  match ps with
  | [] => (g, [], none)
  | (pid, _) :: rest =>
    match BingoGame.generateCardForPlayer g pid (rands k) (uuids k) with
    | .error e => (g, [], some e)
    | .ok (card, g') =>
      let r := dealLoop g' rest rands uuids (k + 1) mkEv
      (r.1, mkEv pid card :: r.2.1, r.2.2)

/-- `startGame()`: fail with zero players; construct and start a fresh
game over the session's word list; deal every current player a card,
emitting one `game_started` (round 1) per player. -/
def startGameCore (s : SessionState) (rands : Nat → Nat → Nat)
    (uuids : Nat → String) :
    Except String Unit × SessionState × List GameEvent :=
  if s.players.length = 0 then
    (.error "Cannot start game: at least 1 player required", s, [])
  else
    match BingoGame.create s.id s.wordList with
    | .error e => (.error e, s, [])
    | .ok game0 =>
      match BingoGame.start game0 with
      | .error e => (.error e, { s with game := some game0 }, [])
      | .ok game1 =>
        let r := dealLoop game1 s.players rands uuids 0
          fun pid card => .gameStarted 1 pid card
        (match r.2.2 with
         | some e => .error e
         | none => .ok (),
         { s with game := some r.1 }, r.2.1)

/-- `startNewRound()`: fail with no game; advance the game (its own
precondition failure propagates, state unchanged); deal every current
player a fresh card, emitting one `new_round_started` per player with
the new round number. -/
def startNewRoundCore (s : SessionState) (rands : Nat → Nat → Nat)
    (uuids : Nat → String) :
    Except String Unit × SessionState × List GameEvent :=
  match s.game with
  | none => (.error "No game to start a new round for", s, [])
  | some game =>
    match BingoGame.startNewRound game with
    | .error e => (.error e, s, [])
    | .ok game1 =>
      let r := dealLoop game1 s.players rands uuids 0
        fun pid card => .newRoundStarted game1.currentRound pid card
      (match r.2.2 with
       | some e => .error e
       | none => .ok (),
       { s with game := some r.1 }, r.2.1)

/-- `markWord(playerId, word)`: fail with no game; delegate to the
game; on a winning result resolve the winner's screen name (falling
back to the raw id), add 100 points / one round won / the round number
to the winner's cumulative score, and emit `player_won`. -/
def markWordCore (s : SessionState) (playerId word : String) (now : Nat) :
    Except String MarkResult × SessionState × List GameEvent :=
  match s.game with
  | none => (.error "No game is active", s, [])
  | some game =>
    match BingoGame.markWord game playerId word now with
    | .error e => (.error e, s, [])
    | .ok (result, game1) =>
      let s1 := { s with game := some game1 }
      if result.bingo then
        match result.winnerId with
        | some winnerId =>
          let winner := lookupA s1.players winnerId
          let result' :=
            match winner with
            | some p => { result with winnerName := some p.screenName }
            | none => result
          let scores' :=
            match lookupA s1.scores winnerId with
            | some sc =>
              setA s1.scores winnerId
                ⟨sc.totalPoints + 100, sc.roundsWon + 1, some game1.currentRound⟩
            | none => s1.scores
          let ev := GameEvent.playerWon winnerId
            (match winner with
             | some p => p.screenName
             | none => winnerId)
            (result.pattern.getD .corners) game1.currentRound now
          (.ok result', { s1 with scores := scores' }, [ev])
        | none => (.ok result, s1, [])
      else (.ok result, s1, [])

end Session

/-- Uniform result of a session operation. -/
inductive SessRes where
  | player (p : Player)
  | unit
  | mark (m : MarkResult)
deriving DecidableEq, Repr

/-- The event-emitting public operations of a `Session` (with their
environment data: uuids, the clock, random choices). -/
inductive SessOp where
  | addPlayer (screenName uuid : String) (now : Nat) (rand : Nat → Nat) (cardUuid : String)
  | removePlayer (playerId : String)
  | startGame (rands : Nat → Nat → Nat) (uuids : Nat → String)
  | startNewRound (rands : Nat → Nat → Nat) (uuids : Nat → String)
  | markWord (playerId word : String) (now : Nat)

/-- The observable outcome of one session operation: its result, the
post-state, the emitted events in order, and for each event the list of
per-listener delivery outcomes (`none` = returned normally,
`some msg` = threw `msg`, caught and discarded). -/
structure SessionRun where
  result : Except String SessRes
  state : SessionState
  events : List GameEvent
  deliveries : List (List (Option String))

/-- Run one session operation, delivering every emitted event to the
session's listeners with `emit`. -/
def runSessionOp (s : SessionState) : SessOp → SessionRun
  | .addPlayer screenName uuid now rand cardUuid =>
    match Session.addPlayerCore s screenName uuid now rand cardUuid with
    | (r, s', evs) => ⟨r.map .player, s', evs, evs.map (emit s.listeners)⟩
  | .removePlayer playerId =>
    match Session.removePlayerCore s playerId with
    | (r, s', evs) => ⟨r.map fun _ => .unit, s', evs, evs.map (emit s.listeners)⟩
  | .startGame rands uuids =>
    match Session.startGameCore s rands uuids with
    | (r, s', evs) => ⟨r.map fun _ => .unit, s', evs, evs.map (emit s.listeners)⟩
  | .startNewRound rands uuids =>
    match Session.startNewRoundCore s rands uuids with
    | (r, s', evs) => ⟨r.map fun _ => .unit, s', evs, evs.map (emit s.listeners)⟩
  | .markWord playerId word now =>
    match Session.markWordCore s playerId word now with
    | (r, s', evs) => ⟨r.map .mark, s', evs, evs.map (emit s.listeners)⟩

/-! ## Relay multiplexer (`src/relay/relay-handler.ts`)

Sockets are opaque identities (`Nat`); whether a socket is currently
open (`readyState === OPEN`) is supplied by the environment as
`isOpen`. Handlers return the new state and the list of transport
actions; the relay never closes a socket, so no branch produces a
`close` action. -/

/-- What the relay writes to a socket. -/
inductive RelayPayload where
  | env (msg : RelayMessage)
  | protoError (message : String)
  | raw (s : String)
deriving DecidableEq, Repr

/-- A transport action. -/
inductive RelayAction where
  | send (sock : Nat) (payload : RelayPayload)
  | close (sock : Nat)
deriving DecidableEq, Repr

/-- The state of `createRelayHandler(secret)`. -/
structure RelayState where
  secret : String
  adminWs : Option Nat
  adminRegistered : Bool
  playerConns : List (String × Nat)
  wsToConn : List (Nat × String)

namespace Relay

/-- `sendToAdmin(msg)`: send only when an admin socket is present and
open. -/
def sendToAdmin (s : RelayState) (isOpen : Nat → Bool) (msg : RelayMessage) :
    List RelayAction :=
  match s.adminWs with
  | some a => if isOpen a then [.send a (.env msg)] else []
  | none => []

/-- `sendToPlayer(ws, data)`: send only when open; a send failure is
swallowed. -/
def sendToPlayer (isOpen : Nat → Bool) (ws : Nat) (p : RelayPayload) :
    List RelayAction :=
  if isOpen ws then [.send ws p] else []

/-- `handleAdminConnection(ws)`: while an admin socket is present and
open, reply `admin_error "Admin already connected"` to the new socket
and change nothing; otherwise adopt the socket as the (unregistered)
admin. -/
def handleAdminConnection (s : RelayState) (isOpen : Nat → Bool) (ws : Nat) :
    RelayState × List RelayAction :=
  if (match s.adminWs with
      | some a => isOpen a
      | none => false) then
    (s, [.send ws (.env (.adminError "Admin already connected"))])
  else
    ({ s with adminWs := some ws, adminRegistered := false }, [])

/-- `handleAdminMessage(raw)`: unparseable input is ignored; before
registration only a correct `admin_register` is accepted (wrong secret
or other envelopes yield `admin_error`); registration acknowledges and,
when players are already connected, sends the `player_roster` snapshot;
after registration, `downstream` routes to the targeted player (unknown
ids silently dropped) and `broadcast` fans out to every player. -/
def handleAdminMessage (s : RelayState) (isOpen : Nat → Bool) (j : Json) :
    RelayState × List RelayAction :=
  match parseRelayMessage j with
  | none => (s, [])
  | some msg =>
    if s.adminRegistered = false then
      match msg with
      | .adminRegister sessionId secret =>
        if secret ≠ s.secret then
          (s, sendToAdmin s isOpen (.adminError "Invalid secret"))
        else
          let s' := { s with adminRegistered := true }
          (s', sendToAdmin s' isOpen (.adminRegistered sessionId) ++
               (if s'.playerConns.length ≠ 0 then
                  sendToAdmin s' isOpen (.playerRoster (s'.playerConns.map fun p => p.1))
                else []))
      | _ => (s, sendToAdmin s isOpen (.adminError "Must register first"))
    else
      match msg with
      | .downstream target event =>
        (s, match lookupA s.playerConns target with
            | some pws => sendToPlayer isOpen pws (.raw event)
            | none => [])
      | .broadcast event =>
        (s, (s.playerConns.map fun p => p.2).flatMap fun pws =>
              sendToPlayer isOpen pws (.raw event))
      | _ => (s, [])

/-- The admin socket's `close` handler: when the departing socket is
the current admin, clear the admin and its registration and notify
every connected player (players stay connected). -/
def handleAdminClose (s : RelayState) (isOpen : Nat → Bool) (ws : Nat) :
    RelayState × List RelayAction :=
  if s.adminWs = some ws then
    ({ s with adminWs := none, adminRegistered := false },
     (s.playerConns.map fun p => p.2).flatMap fun pws =>
       sendToPlayer isOpen pws (.protoError "Game host disconnected. Reconnecting..."))
  else (s, [])

/-- `handlePlayerConnection(ws)`: refused with a transport-level error
when no admin socket is present or none is registered; otherwise the
socket gets a fresh connection id, enters both registries, and the
admin is told `player_connected`. -/
def handlePlayerConnection (s : RelayState) (isOpen : Nat → Bool)
    (ws : Nat) (freshCid : String) : RelayState × List RelayAction :=
  if s.adminWs = none ∨ s.adminRegistered = false then
    (s, [.send ws (.protoError "Game session not available yet. Please try again shortly.")])
  else
    ({ s with playerConns := setA s.playerConns freshCid ws,
              wsToConn := setA s.wsToConn ws freshCid },
     sendToAdmin s isOpen (.playerConnected freshCid))

/-- A player socket's `message` handler (the closure captured its
connection id): forward the raw data upstream to the admin. -/
def handlePlayerMessage (s : RelayState) (isOpen : Nat → Bool)
    (cid data : String) : RelayState × List RelayAction :=
  (s, sendToAdmin s isOpen (.upstream cid data))

/-- A player socket's `close` handler: leave both registries and tell
the admin `player_disconnected`. -/
def handlePlayerClose (s : RelayState) (isOpen : Nat → Bool)
    (cid : String) (ws : Nat) : RelayState × List RelayAction :=
  ({ s with playerConns := delA s.playerConns cid,
            wsToConn := delA s.wsToConn ws },
   sendToAdmin s isOpen (.playerDisconnected cid))

end Relay

/-- One externally-triggered relay event. -/
inductive RStep where
  | adminConn (ws : Nat)
  | adminMsg (j : Json)
  | adminClose (ws : Nat)
  | playerConn (ws : Nat) (freshCid : String)
  | playerMsg (cid data : String)
  | playerClose (cid : String) (ws : Nat)

/-- Dispatch one relay event to its handler. -/
def relayStep (s : RelayState) (isOpen : Nat → Bool) :
    RStep → RelayState × List RelayAction
  | .adminConn ws => Relay.handleAdminConnection s isOpen ws
  | .adminMsg j => Relay.handleAdminMessage s isOpen j
  | .adminClose ws => Relay.handleAdminClose s isOpen ws
  | .playerConn ws freshCid => Relay.handlePlayerConnection s isOpen ws freshCid
  | .playerMsg cid data => Relay.handlePlayerMessage s isOpen cid data
  | .playerClose cid ws => Relay.handlePlayerClose s isOpen cid ws

/-! ## Derived views and concrete inputs used by the theorems -/

/-- The 24 non-center cells of a grid in row-major order (everything but
flat position 12, the FREE center). -/
def nonCenterCells (grid : List (List String)) : List String :=
  grid.flatten.take 12 ++ grid.flatten.drop 13

/-- A mark matrix with exactly the four corners and the center marked. -/
def cornersOnly : List (List Bool) :=
  [[true, false, false, false, true],
   [false, false, false, false, false],
   [false, false, true, false, false],
   [false, false, false, false, false],
   [true, false, false, false, true]]

/-- A word list of 24 distinct single letters (cleaning keeps it as is). -/
def words24 : List String :=
  ["a", "b", "c", "d", "e", "f", "g", "h", "i", "j", "k", "l",
   "m", "n", "o", "p", "q", "r", "s", "t", "u", "v", "w", "x"]

/-- A word list whose 24 cleaned words include the literal `"FREE"`. -/
def freeWords : List String :=
  ["FREE", "a", "b", "c", "d", "e", "f", "g", "h", "i", "j", "k",
   "l", "m", "n", "o", "p", "q", "r", "s", "t", "u", "v", "w"]

/-- A word list that cleans to fewer than 24 unique words. -/
def shortWords : List String := ["a", "b", "c", "a", "B", " ", ""]

/-- A concrete card over `words24` (the identity-shuffle layout). -/
def sampleCard : Card :=
  { id := "u", playerId := "p",
    grid := toRows (flatGrid words24), marked := initMarked }

/-- The card above with the four corners and the center marked. -/
def cornersCard : Card :=
  { sampleCard with marked := cornersOnly }

/-- A game that has just been won (used to exercise the `finished`
branch of `markWord`). -/
def finishedGame : Game :=
  { sessionId := "s", wordList := words24, status := .finished,
    currentRound := 1, cards := [("p1", sampleCard)],
    currentWinner := some { playerId := "p1", playerName := "p1",
                            pattern := .horizontal 0, roundNumber := 1,
                            timestamp := 0, points := 100 },
    roundWinners := [] }

/-- The state `BingoGame.create "s" words24` produces. -/
def demoGame : Game :=
  { sessionId := "s", wordList := words24, status := .waiting,
    currentRound := 0, cards := [], currentWinner := none, roundWinners := [] }

/-- The session state `Session.create "sid" words24` produces. -/
def demoSession : SessionState :=
  { id := "sid", wordList := words24, players := [], game := none,
    listeners := [], scores := [] }

/-- A relay state with a registered admin socket `0` and one connected
player. -/
def relayWithAdmin : RelayState :=
  { secret := "sec", adminWs := some 0, adminRegistered := true,
    playerConns := [("c1", 5)], wsToConn := [(5, "c1")] }

/-- A relay state with no admin at all. -/
def relayNoAdmin : RelayState :=
  { secret := "sec", adminWs := none, adminRegistered := false,
    playerConns := [], wsToConn := [] }

end Townhall

/-!
# Theorems
-/

namespace Townhall

/-- Helper: the clause-by-clause scan of `getWinningPattern` is the
first hit of the 13-pattern scan-order list. -/
theorem winningPattern_eq_find (m : List (List Bool)) :
    Card.winningPattern m = allPatterns.find? (complete m) := by
  have hh : ∀ r, (Card.markAt m r 0 && Card.markAt m r 1 && Card.markAt m r 2 &&
      Card.markAt m r 3 && Card.markAt m r 4) = complete m (.horizontal r) := by
    intro r; simp [complete, patternCells, Bool.and_assoc]
  have hv : ∀ c, (Card.markAt m 0 c && Card.markAt m 1 c && Card.markAt m 2 c &&
      Card.markAt m 3 c && Card.markAt m 4 c) = complete m (.vertical c) := by
    intro c; simp [complete, patternCells, Bool.and_assoc]
  have hd1 : (Card.markAt m 0 0 && Card.markAt m 1 1 && Card.markAt m 2 2 &&
      Card.markAt m 3 3 && Card.markAt m 4 4) = complete m (.diagonal true) := by
    simp [complete, patternCells, Bool.and_assoc]
  have hd2 : (Card.markAt m 0 4 && Card.markAt m 1 3 && Card.markAt m 2 2 &&
      Card.markAt m 3 1 && Card.markAt m 4 0) = complete m (.diagonal false) := by
    simp [complete, patternCells, Bool.and_assoc]
  have hc : (Card.markAt m 0 0 && Card.markAt m 0 4 && Card.markAt m 4 0 &&
      Card.markAt m 4 4 && Card.markAt m 2 2) = complete m .corners := by
    simp [complete, patternCells, Bool.and_assoc]
  rw [Card.winningPattern, hh 0, hh 1, hh 2, hh 3, hh 4, hv 0, hv 1, hv 2, hv 3, hv 4,
    hd1, hd2, hc]
  simp only [allPatterns]
  by_cases h0 : complete m (.horizontal 0) = true
  · rw [if_pos h0, List.find?_cons_of_pos _ h0]
  rw [if_neg h0, List.find?_cons_of_neg _ (by simpa using h0)]
  by_cases h1 : complete m (.horizontal 1) = true
  · rw [if_pos h1, List.find?_cons_of_pos _ h1]
  rw [if_neg h1, List.find?_cons_of_neg _ (by simpa using h1)]
  by_cases h2 : complete m (.horizontal 2) = true
  · rw [if_pos h2, List.find?_cons_of_pos _ h2]
  rw [if_neg h2, List.find?_cons_of_neg _ (by simpa using h2)]
  by_cases h3 : complete m (.horizontal 3) = true
  · rw [if_pos h3, List.find?_cons_of_pos _ h3]
  rw [if_neg h3, List.find?_cons_of_neg _ (by simpa using h3)]
  by_cases h4 : complete m (.horizontal 4) = true
  · rw [if_pos h4, List.find?_cons_of_pos _ h4]
  rw [if_neg h4, List.find?_cons_of_neg _ (by simpa using h4)]
  by_cases h5 : complete m (.vertical 0) = true
  · rw [if_pos h5, List.find?_cons_of_pos _ h5]
  rw [if_neg h5, List.find?_cons_of_neg _ (by simpa using h5)]
  by_cases h6 : complete m (.vertical 1) = true
  · rw [if_pos h6, List.find?_cons_of_pos _ h6]
  rw [if_neg h6, List.find?_cons_of_neg _ (by simpa using h6)]
  by_cases h7 : complete m (.vertical 2) = true
  · rw [if_pos h7, List.find?_cons_of_pos _ h7]
  rw [if_neg h7, List.find?_cons_of_neg _ (by simpa using h7)]
  by_cases h8 : complete m (.vertical 3) = true
  · rw [if_pos h8, List.find?_cons_of_pos _ h8]
  rw [if_neg h8, List.find?_cons_of_neg _ (by simpa using h8)]
  by_cases h9 : complete m (.vertical 4) = true
  · rw [if_pos h9, List.find?_cons_of_pos _ h9]
  rw [if_neg h9, List.find?_cons_of_neg _ (by simpa using h9)]
  by_cases h10 : complete m (.diagonal true) = true
  · rw [if_pos h10, List.find?_cons_of_pos _ h10]
  rw [if_neg h10, List.find?_cons_of_neg _ (by simpa using h10)]
  by_cases h11 : complete m (.diagonal false) = true
  · rw [if_pos h11, List.find?_cons_of_pos _ h11]
  rw [if_neg h11, List.find?_cons_of_neg _ (by simpa using h11)]
  by_cases h12 : complete m .corners = true
  · rw [if_pos h12, List.find?_cons_of_pos _ h12]
  rw [if_neg h12, List.find?_cons_of_neg _ (by simpa using h12)]
  rfl

/-- C1 (amended: 13 patterns, not 12): for every card, `hasWon()` is
true iff at least one of the 13 fixed patterns — rows 0..4, columns
0..4, main diagonal, anti-diagonal, four-corners-plus-center — is fully
marked, and `getWinningPattern()` returns exactly the first complete
pattern in that fixed scan order (or none). -/
theorem card_win_detection_scan_order (card : Card) :
    (Card.hasWon card = true ↔ ∃ p ∈ allPatterns, complete card.marked p = true) ∧
    Card.getWinningPattern card = allPatterns.find? (complete card.marked) := by
  have hfind := winningPattern_eq_find card.marked
  constructor
  · rw [Card.hasWon, Card.getWinningPattern, hfind]
    simp [List.find?_isSome]
  · rw [Card.getWinningPattern, hfind]

/-- C1 counterexample to "the 12 fixed patterns": the scan order
contains 13 patterns, and a card with only the four corners and the
center marked wins although none of the first 12 patterns (rows,
columns, diagonals) is complete. -/
theorem card_thirteen_patterns_counterexample :
    allPatterns.length = 13 ∧
    Card.hasWon cornersCard = true ∧
    ∀ p ∈ allPatterns.take 12, ¬ complete cornersCard.marked p = true := by
  decide

/-- C4: once a game is `finished`, every further `markWord` — for any
player and any word — returns `{success:false, roundOver:true}` and
leaves the whole game state unchanged, so within a round only the first
winning mark has effect. -/
theorem game_finished_rejects_marks (g : Game) (pid w : String) (now : Nat)
    (h : g.status = .finished) :
    BingoGame.markWord g pid w now =
      .ok ({ success := false, bingo := false, roundOver := true }, g) := by
  rw [BingoGame.markWord, h]
  rfl

/-- C4 witness: a concrete finished game rejects a mark unchanged. -/
theorem game_finished_rejects_marks_witness :
    finishedGame.status = .finished ∧
    BingoGame.markWord finishedGame "p1" "a" 7 =
      .ok ({ success := false, bingo := false, roundOver := true }, finishedGame) :=
  ⟨rfl, game_finished_rejects_marks finishedGame "p1" "a" 7 rfl⟩

/-- Helper: a successful `generateCardForPlayer` changes neither the
status nor the current winner. -/
theorem genCard_ok_fields {g : Game} {pid : String} {rand : Nat → Nat} {uuid : String}
    {card : Card} {g' : Game}
    (h : BingoGame.generateCardForPlayer g pid rand uuid = .ok (card, g')) :
    g'.status = g.status ∧ g'.currentWinner = g.currentWinner := by
  unfold BingoGame.generateCardForPlayer at h
  split at h
  · cases h
  · split at h
    · cases h
    · cases h
      exact ⟨rfl, rfl⟩

/-- Helper: every public game operation (failing branches included)
preserves the winner/status invariant and moves the status only along
the allowed edges. -/
theorem applyOp_preserves (g : Game) (op : GameOp) (hInv : WinnerInv g) :
    WinnerInv (applyOp g op) ∧ StatusEdge op g.status (applyOp g op).status := by
  have hnone : g.status ≠ .finished → g.currentWinner = none := by
    intro hs
    cases hw : g.currentWinner with
    | none => rfl
    | some w => exact absurd (hInv.mp (by simp [hw])) hs
  cases op with
  | start =>
    by_cases h : g.status = .waiting
    · have happ : applyOp g .start = { g with status := .active, currentRound := 1 } := by
        simp [applyOp, BingoGame.start, h]
      rw [happ]
      refine ⟨?_, Or.inr (Or.inl ⟨h, rfl, rfl⟩)⟩
      simp only [WinnerInv]
      rw [hnone (by rw [h]; intro hc; cases hc)]
      simp
    · have happ : applyOp g .start = g := by
        simp [applyOp, BingoGame.start, h]
      rw [happ]
      exact ⟨hInv, Or.inl rfl⟩
  | startNewRound =>
    by_cases h : g.status = .finished
    · have happ : applyOp g .startNewRound =
          { g with
            roundWinners :=
              match g.currentWinner with
              | some w => g.roundWinners ++ [w]
              | none => g.roundWinners,
            currentWinner := none, cards := [],
            currentRound := g.currentRound + 1, status := .active } := by
        simp [applyOp, BingoGame.startNewRound, h]
      rw [happ]
      refine ⟨?_, Or.inr (Or.inr (Or.inr ⟨h, rfl, rfl⟩))⟩
      simp [WinnerInv]
    · have happ : applyOp g .startNewRound = g := by
        simp [applyOp, BingoGame.startNewRound, h]
      rw [happ]
      exact ⟨hInv, Or.inl rfl⟩
  | generateCard pid rand uuid =>
    cases hgen : BingoGame.generateCardForPlayer g pid rand uuid with
    | error e =>
      have happ : applyOp g (.generateCard pid rand uuid) = g := by
        simp [applyOp, hgen]
      rw [happ]
      exact ⟨hInv, Or.inl rfl⟩
    | ok pr =>
      obtain ⟨card, g'⟩ := pr
      have happ : applyOp g (.generateCard pid rand uuid) = g' := by
        simp [applyOp, hgen]
      obtain ⟨hs, hw⟩ := genCard_ok_fields hgen
      rw [happ]
      refine ⟨?_, Or.inl hs⟩
      simp only [WinnerInv, hs, hw]
      exact hInv
  | markWord pid w now =>
    by_cases hwait : g.status = .waiting
    · have happ : applyOp g (.markWord pid w now) = g := by
        simp [applyOp, BingoGame.markWord, hwait]
      rw [happ]
      exact ⟨hInv, Or.inl rfl⟩
    by_cases hfin : g.status = .finished
    · have happ : applyOp g (.markWord pid w now) = g := by
        simp [applyOp, BingoGame.markWord, hwait, hfin]
      rw [happ]
      exact ⟨hInv, Or.inl rfl⟩
    have hact : g.status = .active := by
      cases hs : g.status
      · exact absurd hs hwait
      · rfl
      · exact absurd hs hfin
    cases hlk : lookupA g.cards pid with
    | none =>
      have happ : applyOp g (.markWord pid w now) = g := by
        simp [applyOp, BingoGame.markWord, hwait, hfin, hlk]
      rw [happ]
      exact ⟨hInv, Or.inl rfl⟩
    | some card =>
      rcases hmk : Card.markWord card w with ⟨marked, card'⟩
      cases marked with
      | false =>
        have happ : applyOp g (.markWord pid w now) =
            { g with cards := setA g.cards pid card' } := by
          simp [applyOp, BingoGame.markWord, hwait, hfin, hlk, hmk]
        rw [happ]
        exact ⟨hInv, Or.inl rfl⟩
      | true =>
        cases hwp : card'.getWinningPattern with
        | none =>
          have happ : applyOp g (.markWord pid w now) =
              { g with cards := setA g.cards pid card' } := by
            simp [applyOp, BingoGame.markWord, hwait, hfin, hlk, hmk, hwp]
          rw [happ]
          exact ⟨hInv, Or.inl rfl⟩
        | some pattern =>
          have happ : applyOp g (.markWord pid w now) =
              { g with cards := setA g.cards pid card',
                       currentWinner := some
                         { playerId := pid, playerName := pid, pattern := pattern,
                           roundNumber := g.currentRound, timestamp := now,
                           points := 100 },
                       status := .finished } := by
            simp [applyOp, BingoGame.markWord, hwait, hfin, hlk, hmk, hwp]
          rw [happ]
          refine ⟨?_, Or.inr (Or.inr (Or.inl ⟨hact, rfl, pid, w, now, rfl⟩))⟩
          simp [WinnerInv]


/-- C5: in every state reachable from a freshly constructed game by
`start`, `startNewRound`, `generateCardForPlayer` and `markWord`,
`currentWinner` is non-null iff the status is `finished`, and each
operation preserves this invariant while moving the status only along
waiting →(start)→ active →(winning mark)→ finished →(startNewRound)→
active (failing branches leave the state unchanged). -/
theorem game_status_winner_invariant :
    ∀ (sid : String) (wl : List String) (g0 g : Game),
      BingoGame.create sid wl = .ok g0 → Reachable g0 g →
      WinnerInv g ∧ ∀ op : GameOp,
        WinnerInv (applyOp g op) ∧ StatusEdge op g.status (applyOp g op).status := by
  intro sid wl g0 g hc hr
  have hInv0 : WinnerInv g0 := by
    unfold BingoGame.create at hc
    split at hc
    · cases hc
    · cases hc
      simp [WinnerInv]
  have hInv : WinnerInv g := by
    induction hr with
    | init => exact hInv0
    | step op hr ih => exact (applyOp_preserves _ op ih).1
  exact ⟨hInv, fun op => applyOp_preserves g op hInv⟩

/-- C5 witness: the invariant and a `start` edge at the concrete
freshly-created game over `words24`. -/
theorem game_status_winner_invariant_witness :
    BingoGame.create "s" words24 = .ok demoGame ∧ WinnerInv demoGame ∧
      StatusEdge .start demoGame.status (applyOp demoGame .start).status := by
  have hc : BingoGame.create "s" words24 = .ok demoGame := by rfl
  exact ⟨hc, (game_status_winner_invariant "s" words24 demoGame demoGame hc .init).1,
    ((game_status_winner_invariant "s" words24 demoGame demoGame hc .init).2 .start).2⟩

/-- Helper: writing the same value to the same mark cell twice equals
writing it once. -/
theorem setMark_setMark (m : List (List Bool)) (r c : Nat) (v : Bool) :
    Card.setMark (Card.setMark m r c v) r c v = Card.setMark m r c v := by
  unfold Card.setMark
  by_cases h : r < m.length
  · have hget : (m.set r ((m.getD r []).set c v)).getD r [] = (m.getD r []).set c v := by
      rw [List.getD_eq_getElem?_getD, List.getElem?_set_self (by simpa using h)]
      rfl
    rw [hget, List.set_set, List.set_set]
  · have hle : m.length ≤ r := Nat.le_of_not_lt h
    rw [List.set_eq_of_length_le hle, List.set_eq_of_length_le hle]

/-- C3: `markWord` is idempotent — the second of two identical calls
returns the same result and leaves the mark state exactly as after the
first — and a word matching no cell returns `false` without mutating
the card. -/
theorem card_markWord_idempotent (card : Card) (w : String) :
    Card.markWord (Card.markWord card w).2 w =
      ((Card.markWord card w).1, (Card.markWord card w).2) ∧
    ((Card.markWord card w).1 = false → (Card.markWord card w).2 = card) := by
  unfold Card.markWord
  cases h : Card.findCell card.grid (jsToLower (jsTrim w)) 0 with
  | none => simp [h]
  | some rc =>
    obtain ⟨r, c⟩ := rc
    refine ⟨?_, ?_⟩
    · simp [h, setMark_setMark]
    · intro hfalse
      simp only [h] at hfalse
      simp at hfalse

/-- C3 witness: marking a word absent from a concrete card returns
`false` and leaves the card untouched. -/
theorem card_markWord_idempotent_witness :
    (Card.markWord sampleCard "zzz").1 = false ∧
    (Card.markWord sampleCard "zzz").2 = sampleCard :=
  ⟨by decide, (card_markWord_idempotent sampleCard "zzz").2 (by decide)⟩

/-- Helper: decoding an encoded natural number. -/
theorem asNat_num (n : Nat) : asNat (.num n) = some n := by
  simp [asNat]

/-- Helper: element-wise decoding of an encoded array (loop form). -/
theorem asArrayOf_go_map {α β : Type} (dec : Json → Option α) (enc : β → Json)
    (f : β → α) (h : ∀ x, dec (enc x) = some (f x)) (xs : List β) :
    asArrayOf.go dec (xs.map enc) = some (xs.map f) := by
  induction xs with
  | nil => rfl
  | cons x xs ih => simp only [List.map_cons, asArrayOf.go, h, ih]

/-- Helper: element-wise decoding of an encoded array. -/
theorem asArrayOf_map {α : Type} (dec : Json → Option α) (enc : α → Json)
    (h : ∀ x, dec (enc x) = some x) (xs : List α) :
    asArrayOf dec (.arr (xs.map enc)) = some xs := by
  have := asArrayOf_go_map dec enc id h xs
  simpa [asArrayOf] using this

/-- Helper: decoding an encoded string. -/
theorem asString_str (s : String) : asString (.str s) = some s := rfl

/-- Helper: decoding an encoded boolean. -/
theorem asBool_bool (b : Bool) : asBool (.bool b) = some b := rfl

/-- Helper: relay envelope round-trip, all nine variants. -/
theorem parseRelay_roundtrip (m : RelayMessage) :
    parseRelayMessage (serializeRelayMessage m) = some m := by
  cases m with
  | playerRoster connections =>
    simp [serializeRelayMessage, parseRelayMessage, jsonField, lookupA,
      asArrayOf_map asString .str asString_str]
  | _ =>
    simp [serializeRelayMessage, parseRelayMessage, jsonField, lookupA, asString]

/-- Helper: client command round-trip, all five variants. -/
theorem parseCommand_roundtrip (c : Command) :
    parseCommand (encodeCommand c) = some c := by
  cases c with
  | createSession words =>
    simp [encodeCommand, parseCommand, jsonField, lookupA,
      asArrayOf_map asString .str asString_str]
  | _ => simp [encodeCommand, parseCommand, jsonField, lookupA, asString]

/-- Helper: win pattern encoding round-trip. -/
theorem decodeWinPattern_roundtrip (p : WinPattern) :
    decodeWinPattern (encodeWinPattern p) = some p := by
  cases p with
  | diagonal d =>
    cases d <;> simp [encodeWinPattern, decodeWinPattern, jsonField, lookupA, asString]
  | _ => simp [encodeWinPattern, decodeWinPattern, jsonField, lookupA, asNat_num]

/-- Helper: player score encoding round-trip (with and without the
optional `lastWinRound`). -/
theorem decodePlayerScore_roundtrip (s : PlayerScore) :
    decodePlayerScore (encodePlayerScore s) = some s := by
  obtain ⟨playerId, screenName, totalPoints, roundsWon, lastWinRound⟩ := s
  cases lastWinRound with
  | none =>
    simp [encodePlayerScore, decodePlayerScore, jsonField, lookupA, asString, asNat_num]
  | some r =>
    simp [encodePlayerScore, decodePlayerScore, jsonField, lookupA, asString, asNat_num]

/-- Helper: server event round-trip, all ten variants. -/
theorem parseServerEvent_roundtrip (e : ServerEvent) :
    parseServerEvent (serializeEvent e) = some e := by
  cases e with
  | cardDealt roundNumber grid marked =>
    simp [serializeEvent, parseServerEvent, jsonField, lookupA, asNat_num,
      asArrayOf_map (asArrayOf asString) (fun row => .arr (row.map .str))
        (asArrayOf_map asString .str asString_str),
      asArrayOf_map (asArrayOf asBool) (fun row => .arr (row.map .bool))
        (asArrayOf_map asBool .bool asBool_bool)]
  | playerWon winnerName pattern roundNumber =>
    simp [serializeEvent, parseServerEvent, jsonField, lookupA, asString, asNat_num,
      decodeWinPattern_roundtrip]
  | leaderboard entries =>
    simp [serializeEvent, parseServerEvent, jsonField, lookupA,
      asArrayOf_map decodePlayerScore encodePlayerScore decodePlayerScore_roundtrip]
  | _ =>
    simp [serializeEvent, parseServerEvent, jsonField, lookupA, asString, asNat_num, asBool]

/-- C6: serializing then parsing is the identity on every well-typed
relay envelope (all nine variants), every client command and every
server event: the parsed value is deep-equal to the original. -/
theorem codec_roundtrip_identity :
    (∀ m : RelayMessage, parseRelayMessage (serializeRelayMessage m) = some m) ∧
    (∀ c : Command, parseCommand (encodeCommand c) = some c) ∧
    (∀ e : ServerEvent, parseServerEvent (serializeEvent e) = some e) :=
  ⟨parseRelay_roundtrip, parseCommand_roundtrip, parseServerEvent_roundtrip⟩

/-- Helper: how one `set` changes element counts. -/
theorem count_set (l : List String) (i : Nat) (hi : i < l.length) (b a : String) :
    (l.set i b).count a + (if l.get ⟨i, hi⟩ = a then 1 else 0)
      = l.count a + (if b = a then 1 else 0) := by
  induction l generalizing i with
  | nil => cases hi
  | cons x xs ih =>
    cases i with
    | zero =>
      simp only [List.set_cons_zero, List.get_cons_zero, List.count_cons, beq_iff_eq]
      by_cases hx : x = a <;> by_cases hb : b = a <;> simp [hx, hb]
    | succ i =>
      have hi' : i < xs.length := Nat.lt_of_succ_lt_succ hi
      simp only [List.set_cons_succ, List.count_cons, List.get_cons_succ, beq_iff_eq]
      have := ih i hi' 
      omega

/-- Helper: an in-range destructuring swap permutes the list. -/
theorem swapCells_perm (l : List String) (i j : Nat)
    (hi : i < l.length) (hj : j < l.length) : List.Perm (swapCells l i j) l := by
  rw [List.perm_iff_count]
  intro a
  have hyD : l.getD j "" = l.get ⟨j, hj⟩ := by
    rw [List.getD_eq_getElem l "" hj]
    rfl
  have hxD : l.getD i "" = l.get ⟨i, hi⟩ := by
    rw [List.getD_eq_getElem l "" hi]
    rfl
  have hj1 : j < (l.set i (l.getD j "")).length := by simpa using hj
  have h1 := count_set (l.set i (l.getD j "")) j hj1 (l.getD i "") a
  have h2 := count_set l i hi (l.getD j "") a
  have hmj : (l.set i (l.getD j "")).get ⟨j, hj1⟩ = l.get ⟨j, hj⟩ := by
    by_cases hij : i = j
    · subst hij
      show (l.set i (l.getD i ""))[i] = _
      rw [List.getElem_set_self, hxD]
    · show (l.set i (l.getD j ""))[j] = _
      rw [List.getElem_set_ne hij]
      rfl
  rw [hmj] at h1
  rw [swapCells]
  rw [hxD, hyD] at *
  split at h1 <;> split at h2 <;> simp_all


/-- Helper: the Fisher-Yates loop permutes the list. -/
theorem fisherYatesGo_perm (rand : Nat → Nat) :
    ∀ (i : Nat) (l : List String), i < l.length →
      List.Perm (fisherYatesGo rand l i) l := by
  intro i
  induction i with
  | zero => intro l _; rfl
  | succ i ih =>
    intro l hi
    have hj : (rand (i + 1) % (i + 2)) < l.length :=
      Nat.lt_of_le_of_lt (Nat.le_of_lt_succ (Nat.mod_lt _ (Nat.succ_pos _))) hi
    have hswap := swapCells_perm l (i + 1) (rand (i + 1) % (i + 2)) hi hj
    have hlen : (swapCells l (i + 1) (rand (i + 1) % (i + 2))).length = l.length := by
      simp [swapCells]
    have hi' : i < (swapCells l (i + 1) (rand (i + 1) % (i + 2))).length := by
      omega
    exact (ih _ hi').trans hswap

/-- Helper: the shuffle is a permutation of its input. -/
theorem fisherYates_perm (rand : Nat → Nat) (l : List String) :
    List.Perm (fisherYates rand l) l := by
  cases l with
  | nil => rfl
  | cons x xs =>
    exact fisherYatesGo_perm rand (x :: xs).length.pred (x :: xs) (by simp)

/-- Helper: the cleaning loop yields words with pairwise-distinct
lowercasings, none of which is in the seen set. -/
theorem cleanWords_go_lower_nodup (ws : List String) :
    ∀ seen : List String,
      ((cleanWords.go seen ws).map jsToLower).Nodup ∧
      ∀ x ∈ cleanWords.go seen ws, jsToLower x ∉ seen := by
  induction ws with
  | nil => intro seen; exact ⟨List.nodup_nil, by intro x hx; cases hx⟩
  | cons w ws ih =>
    intro seen
    rw [cleanWords.go]
    by_cases h0 : (jsTrim w).length = 0
    · simpa [h0] using ih seen
    by_cases h1 : jsToLower (jsTrim w) ∈ seen
    · simpa [h0, h1] using ih seen
    have ⟨ihn, ihm⟩ := ih (jsToLower (jsTrim w) :: seen)
    simp only [h0, h1, if_false, if_neg]
    refine ⟨?_, ?_⟩
    · simp only [List.map_cons, List.nodup_cons]
      refine ⟨?_, ihn⟩
      intro hmem
      obtain ⟨x, hx, hlx⟩ := List.mem_map.mp hmem
      exact (ihm x hx) (by rw [hlx]; exact List.mem_cons_self _ _)
    · intro x hx
      rcases List.mem_cons.mp hx with hEq | hTail
      · rw [hEq]; exact h1
      · intro hseen
        exact (ihm x hTail) (List.mem_cons_of_mem _ hseen)

/-- Helper: the cleaned word list has no duplicates. -/
theorem cleanWords_nodup (wl : List String) : (cleanWords wl).Nodup :=
  List.Nodup.of_map jsToLower (cleanWords_go_lower_nodup wl []).1


/-- Helper: regrouping a 25-cell flat list into rows and flattening
returns the flat list. -/
theorem flatten_toRows (f : List String) (h : f.length = 25) :
    (toRows f).flatten = f := by
  have h20 : (f.drop 20).take 5 = f.drop 20 :=
    List.take_of_length_le (by simp [h])
  have e15 : (f.drop 15).take 5 ++ f.drop 20 = f.drop 15 := by
    have e := List.take_append_drop 5 (f.drop 15)
    rw [List.drop_drop] at e
    exact e
  have e10 : (f.drop 10).take 5 ++ f.drop 15 = f.drop 10 := by
    have e := List.take_append_drop 5 (f.drop 10)
    rw [List.drop_drop] at e
    exact e
  have e5 : (f.drop 5).take 5 ++ f.drop 10 = f.drop 5 := by
    have e := List.take_append_drop 5 (f.drop 5)
    rw [List.drop_drop] at e
    exact e
  have e0 : f.take 5 ++ f.drop 5 = f := List.take_append_drop 5 f
  calc (toRows f).flatten
      = f.take 5 ++ ((f.drop 5).take 5 ++ ((f.drop 10).take 5 ++
          ((f.drop 15).take 5 ++ (f.drop 20).take 5))) := by
        simp [toRows]
    _ = f := by rw [h20, e15, e10, e5, e0]

/-- Helper: the 24 non-center cells of the laid-out grid are exactly
the selected words, in order. -/
theorem nonCenterCells_flatGrid (sel : List String) (h : sel.length = 24) :
    nonCenterCells (toRows (flatGrid sel)) = sel := by
  have hlen : (flatGrid sel).length = 25 := by
    simp [flatGrid, h]
  rw [nonCenterCells, flatten_toRows _ hlen]
  have htake : (flatGrid sel).take 12 = sel.take 12 :=
    List.take_left' (by simp [h])
  have hdrop : (flatGrid sel).drop 13 = sel.drop 12 := by
    have e : (flatGrid sel).drop 13 = ((flatGrid sel).drop 12).drop 1 := by
      rw [List.drop_drop]
    rw [e, flatGrid, List.drop_left' (by simp [h] : (sel.take 12).length = 12)]
    rfl
  rw [htake, hdrop, List.take_append_drop]

/-- Helper: cell `(2,2)` of the laid-out grid is the FREE sentinel. -/
theorem cellAt_center (sel : List String) (h : sel.length = 24) :
    Card.cellAt (toRows (flatGrid sel)) 2 2 = "FREE" := by
  show (((flatGrid sel).drop 10).take 5).getD 2 "" = "FREE"
  rw [List.getD_eq_getElem?_getD, List.getElem?_take_of_lt (by omega), List.getElem?_drop]
  rw [flatGrid, List.getElem?_append_right (by simp [h])]
  simp [h]


/-- C2 (amended: the 24 grid words are distinct words from the cleaned
list, but not necessarily different from the literal `"FREE"`, which a
word list may itself contain): for every player id, word list whose
cleaning leaves at least 24 words, and shuffle choice, `generate`
returns a 5×5 card carrying exactly 24 distinct words of the cleaned
list in the non-center cells, the FREE sentinel at `(2,2)`, and a mark
grid that is all false except `(2,2)`; with fewer than 24 cleaned words
it fails with the validation error. -/
theorem card_generate_valid_layout (pid : String) (wl : List String)
    (rand : Nat → Nat) (uuid : String) :
    (24 ≤ (cleanWords wl).length →
      ∃ sel : List String,
        Card.generate pid wl rand uuid = .ok
          { id := uuid, playerId := pid, grid := toRows (flatGrid sel),
            marked := initMarked } ∧
        sel.length = 24 ∧ sel.Nodup ∧ (∀ w ∈ sel, w ∈ cleanWords wl) ∧
        nonCenterCells (toRows (flatGrid sel)) = sel ∧
        Card.cellAt (toRows (flatGrid sel)) 2 2 = "FREE" ∧
        Card.markAt initMarked 2 2 = true ∧
        (∀ r, r < 5 → ∀ c, c < 5 → ¬(r = 2 ∧ c = 2) →
          Card.markAt initMarked r c = false)) ∧
    ((cleanWords wl).length < 24 →
      ∃ msg, Card.generate pid wl rand uuid = .error msg) := by
  constructor
  · intro hge
    have hp := fisherYates_perm rand (cleanWords wl)
    have hsel : ((fisherYates rand (cleanWords wl)).take 24).length = 24 := by
      rw [List.length_take, hp.length_eq]
      omega
    refine ⟨(fisherYates rand (cleanWords wl)).take 24, ?_, hsel, ?_, ?_, ?_, ?_, ?_, ?_⟩
    · unfold Card.generate
      rw [if_neg (by omega)]
    · exact List.Nodup.sublist (List.take_sublist _ _)
        (hp.nodup_iff.mpr (cleanWords_nodup wl))
    · intro w hw
      exact hp.mem_iff.mp (List.mem_of_mem_take hw)
    · exact nonCenterCells_flatGrid _ hsel
    · exact cellAt_center _ hsel
    · decide
    · decide
  · intro hlt
    refine ⟨s!"Word list must contain at least 24 unique words, got {(cleanWords wl).length}", ?_⟩
    unfold Card.generate
    rw [if_pos (by omega)]

/-- C2 witness: both branches at concrete inputs — `words24` (exactly
24 unique words) succeeds with the stated layout, `shortWords` (3
unique words after cleaning) is rejected. -/
theorem card_generate_valid_layout_witness :
    (24 ≤ (cleanWords words24).length ∧
      ∃ sel : List String,
        Card.generate "p" words24 (fun _ => 0) "u" = .ok
          { id := "u", playerId := "p", grid := toRows (flatGrid sel),
            marked := initMarked } ∧
        sel.length = 24 ∧ sel.Nodup ∧ (∀ w ∈ sel, w ∈ cleanWords words24) ∧
        nonCenterCells (toRows (flatGrid sel)) = sel ∧
        Card.cellAt (toRows (flatGrid sel)) 2 2 = "FREE" ∧
        Card.markAt initMarked 2 2 = true ∧
        (∀ r, r < 5 → ∀ c, c < 5 → ¬(r = 2 ∧ c = 2) →
          Card.markAt initMarked r c = false)) ∧
    ((cleanWords shortWords).length < 24 ∧
      ∃ msg, Card.generate "p" shortWords (fun _ => 0) "u" = .error msg) :=
  ⟨⟨by decide, (card_generate_valid_layout "p" words24 (fun _ => 0) "u").1 (by decide)⟩,
   ⟨by decide, (card_generate_valid_layout "p" shortWords (fun _ => 0) "u").2 (by decide)⟩⟩

/-- C2 counterexample to "non-FREE words": the cleaned word list
`freeWords` has 24 unique words, one of which is the literal `"FREE"`;
the generated card then carries `"FREE"` in the non-center cell
`(4,4)`, so the grid does not hold 24 non-FREE words. -/
theorem card_generate_free_word_counterexample :
    24 ≤ (cleanWords freeWords).length ∧
    (Card.generate "p" freeWords (fun _ => 0) "u").toOption.map
      (fun c => Card.cellAt c.grid 4 4) = some "FREE" ∧
    ¬(4 = 2 ∧ 4 = 2) := by
  decide

/-- Helper: `addPlayer` neither reads nor writes the listener array. -/
theorem addPlayerCore_setListeners (s : SessionState) (ls : List Listener)
    (screenName uuid : String) (now : Nat) (rand : Nat → Nat) (cardUuid : String) :
    Session.addPlayerCore (setListeners s ls) screenName uuid now rand cardUuid =
      ((Session.addPlayerCore s screenName uuid now rand cardUuid).1,
       setListeners (Session.addPlayerCore s screenName uuid now rand cardUuid).2.1 ls,
       (Session.addPlayerCore s screenName uuid now rand cardUuid).2.2) := by
  dsimp only [Session.addPlayerCore, setListeners]
  repeat' split
  all_goals rfl


/-- Helper: `removePlayer` neither reads nor writes the listener array. -/
theorem removePlayerCore_setListeners (s : SessionState) (ls : List Listener)
    (playerId : String) :
    Session.removePlayerCore (setListeners s ls) playerId =
      ((Session.removePlayerCore s playerId).1,
       setListeners (Session.removePlayerCore s playerId).2.1 ls,
       (Session.removePlayerCore s playerId).2.2) := by
  dsimp only [Session.removePlayerCore, setListeners]
  repeat' split
  all_goals rfl

/-- Helper: `startGame` neither reads nor writes the listener array. -/
theorem startGameCore_setListeners (s : SessionState) (ls : List Listener)
    (rands : Nat → Nat → Nat) (uuids : Nat → String) :
    Session.startGameCore (setListeners s ls) rands uuids =
      ((Session.startGameCore s rands uuids).1,
       setListeners (Session.startGameCore s rands uuids).2.1 ls,
       (Session.startGameCore s rands uuids).2.2) := by
  dsimp only [Session.startGameCore, setListeners]
  repeat' split
  all_goals rfl

/-- Helper: `startNewRound` neither reads nor writes the listener array. -/
theorem startNewRoundCore_setListeners (s : SessionState) (ls : List Listener)
    (rands : Nat → Nat → Nat) (uuids : Nat → String) :
    Session.startNewRoundCore (setListeners s ls) rands uuids =
      ((Session.startNewRoundCore s rands uuids).1,
       setListeners (Session.startNewRoundCore s rands uuids).2.1 ls,
       (Session.startNewRoundCore s rands uuids).2.2) := by
  dsimp only [Session.startNewRoundCore, setListeners]
  repeat' split
  all_goals rfl

/-- Helper: `markWord` neither reads nor writes the listener array. -/
theorem markWordCore_setListeners (s : SessionState) (ls : List Listener)
    (playerId word : String) (now : Nat) :
    Session.markWordCore (setListeners s ls) playerId word now =
      ((Session.markWordCore s playerId word now).1,
       setListeners (Session.markWordCore s playerId word now).2.1 ls,
       (Session.markWordCore s playerId word now).2.2) := by
  dsimp only [Session.markWordCore, setListeners]
  repeat' split
  all_goals rfl


/-- C7: every emitted event is delivered to all registered listeners
synchronously in subscription order (one caught outcome per listener
per event, each listener applied to the same event), and listener
exceptions are caught and discarded: the operation's result, emitted
events and state mutations are identical for any listener behaviour,
throwing or not. -/
theorem session_listener_isolation (s : SessionState) (op : SessOp) :
    ((runSessionOp s op).deliveries =
      (runSessionOp s op).events.map fun e => s.listeners.map fun l => emitOne l e) ∧
    ∀ ls2 : List Listener,
      (runSessionOp (setListeners s ls2) op).result = (runSessionOp s op).result ∧
      (runSessionOp (setListeners s ls2) op).events = (runSessionOp s op).events ∧
      (runSessionOp (setListeners s ls2) op).state =
        setListeners (runSessionOp s op).state ls2 := by
  constructor
  · cases op with
    | addPlayer a b c d e =>
      rcases hcore : Session.addPlayerCore s a b c d e with ⟨r, s', evs⟩
      simp [runSessionOp, hcore, emit]
    | removePlayer a =>
      rcases hcore : Session.removePlayerCore s a with ⟨r, s', evs⟩
      simp [runSessionOp, hcore, emit]
    | startGame a b =>
      rcases hcore : Session.startGameCore s a b with ⟨r, s', evs⟩
      simp [runSessionOp, hcore, emit]
    | startNewRound a b =>
      rcases hcore : Session.startNewRoundCore s a b with ⟨r, s', evs⟩
      simp [runSessionOp, hcore, emit]
    | markWord a b c =>
      rcases hcore : Session.markWordCore s a b c with ⟨r, s', evs⟩
      simp [runSessionOp, hcore, emit]
  · intro ls2
    cases op with
    | addPlayer a b c d e =>
      rcases hcore : Session.addPlayerCore s a b c d e with ⟨r, s', evs⟩
      have h2 := addPlayerCore_setListeners s ls2 a b c d e
      rw [hcore] at h2
      simp [runSessionOp, hcore, h2]
    | removePlayer a =>
      rcases hcore : Session.removePlayerCore s a with ⟨r, s', evs⟩
      have h2 := removePlayerCore_setListeners s ls2 a
      rw [hcore] at h2
      simp [runSessionOp, hcore, h2]
    | startGame a b =>
      rcases hcore : Session.startGameCore s a b with ⟨r, s', evs⟩
      have h2 := startGameCore_setListeners s ls2 a b
      rw [hcore] at h2
      simp [runSessionOp, hcore, h2]
    | startNewRound a b =>
      rcases hcore : Session.startNewRoundCore s a b with ⟨r, s', evs⟩
      have h2 := startNewRoundCore_setListeners s ls2 a b
      rw [hcore] at h2
      simp [runSessionOp, hcore, h2]
    | markWord a b c =>
      rcases hcore : Session.markWordCore s a b c with ⟨r, s', evs⟩
      have h2 := markWordCore_setListeners s ls2 a b c
      rw [hcore] at h2
      simp [runSessionOp, hcore, h2]

/-- C8: while an admin connection is open and registered, a second
admin connection attempt receives an `admin_error` whose message
contains "already"; the stored admin socket, the registration flag and
the registries are unchanged (the reply is the only action — nothing is
closed), and player traffic still routes upstream to the original
admin socket. -/
theorem relay_second_admin_rejected (s : RelayState) (isOpen : Nat → Bool)
    (ws2 a : Nat) (cid data : String)
    (hAdmin : s.adminWs = some a) (hOpen : isOpen a = true)
    (_hReg : s.adminRegistered = true) :
    Relay.handleAdminConnection s isOpen ws2 =
      (s, [.send ws2 (.env (.adminError "Admin already connected"))]) ∧
    (∃ pre post : List Char,
      "Admin already connected".data = pre ++ "already".data ++ post) ∧
    Relay.handlePlayerMessage s isOpen cid data =
      (s, [.send a (.env (.upstream cid data))]) := by
  refine ⟨?_, ⟨"Admin ".data, " connected".data, by decide⟩, ?_⟩
  · rw [Relay.handleAdminConnection, hAdmin]
    simp [hOpen]
  · rw [Relay.handlePlayerMessage, Relay.sendToAdmin, hAdmin]
    simp [hOpen]

/-- C8 witness: the rejection and the continued routing at a concrete
registered-admin relay state. -/
theorem relay_second_admin_rejected_witness :
    relayWithAdmin.adminWs = some 0 ∧ relayWithAdmin.adminRegistered = true ∧
    Relay.handleAdminConnection relayWithAdmin (fun _ => true) 9 =
      (relayWithAdmin, [.send 9 (.env (.adminError "Admin already connected"))]) ∧
    Relay.handlePlayerMessage relayWithAdmin (fun _ => true) "c1" "mark" =
      (relayWithAdmin, [.send 0 (.env (.upstream "c1" "mark"))]) :=
  ⟨rfl, rfl,
   (relay_second_admin_rejected relayWithAdmin (fun _ => true) 9 0 "c1" "mark"
      rfl rfl rfl).1,
   (relay_second_admin_rejected relayWithAdmin (fun _ => true) 9 0 "c1" "mark"
      rfl rfl rfl).2.2⟩


/-- Helper: a key of `setA l k v` is a key of `l` or `k` itself. -/
theorem mem_keys_setA {α : Type} (l : List (String × α)) (k c : String) (v : α)
    (hc : c ∈ (setA l k v).map Prod.fst) : c ∈ l.map Prod.fst ∨ c = k := by
  rw [setA] at hc
  split at hc
  · obtain ⟨p, hp, hpc⟩ := List.mem_map.mp hc
    obtain ⟨q, hq, hqp⟩ := List.mem_map.mp hp
    by_cases hqk : q.1 = k
    · rw [if_pos hqk] at hqp
      right
      rw [← hpc, ← hqp]
    · rw [if_neg hqk] at hqp
      left
      exact List.mem_map.mpr ⟨q, hq, by rw [← hpc, ← hqp]⟩
  · rw [List.map_append] at hc
    rcases List.mem_append.mp hc with h | h
    · exact Or.inl h
    · right
      simpa using h

/-- C9: a player socket connecting while no admin is present and
registered is refused — it is sent only the transport-level error, the
state (registries included) is untouched, so it gets no connection id
and no `player_connected` is emitted — and, over every relay event, a
connection id can enter the registry only through a player connection
made while an admin socket was present and registered. -/
theorem relay_player_refused_without_admin :
    (∀ (s : RelayState) (isOpen : Nat → Bool) (ws : Nat) (cid : String),
      s.adminWs = none ∨ s.adminRegistered = false →
      relayStep s isOpen (.playerConn ws cid) =
        (s, [.send ws (.protoError
          "Game session not available yet. Please try again shortly.")])) ∧
    (∀ (s : RelayState) (isOpen : Nat → Bool) (st : RStep) (c : String),
      c ∈ (relayStep s isOpen st).1.playerConns.map Prod.fst →
      c ∈ s.playerConns.map Prod.fst ∨
      (∃ ws a, st = .playerConn ws c ∧ s.adminWs = some a ∧
        s.adminRegistered = true)) := by
  constructor
  · intro s isOpen ws cid h
    rw [relayStep, Relay.handlePlayerConnection, if_pos h]
  · intro s isOpen st c hc
    cases st with
    | adminConn ws =>
      rw [relayStep, Relay.handleAdminConnection] at hc
      split at hc
      · exact Or.inl hc
      · exact Or.inl hc
    | adminMsg j =>
      rw [relayStep, Relay.handleAdminMessage] at hc
      repeat' split at hc
      all_goals exact Or.inl hc
    | adminClose ws =>
      rw [relayStep, Relay.handleAdminClose] at hc
      split at hc
      · exact Or.inl hc
      · exact Or.inl hc
    | playerConn ws cid =>
      rw [relayStep, Relay.handlePlayerConnection] at hc
      split at hc
      · exact Or.inl hc
      · rename_i hcond
        push_neg at hcond
        obtain ⟨hWs, hReg⟩ := hcond
        rcases mem_keys_setA s.playerConns cid c ws hc with h | h
        · exact Or.inl h
        · right
          obtain ⟨a, ha⟩ := Option.ne_none_iff_exists.mp hWs
          exact ⟨ws, a, by rw [h], ha.symm,
            by cases hb : s.adminRegistered with
               | true => rfl
               | false => exact absurd hb hReg⟩
    | playerMsg cid data =>
      rw [relayStep, Relay.handlePlayerMessage] at hc
      exact Or.inl hc
    | playerClose cid ws =>
      rw [relayStep, Relay.handlePlayerClose] at hc
      left
      obtain ⟨p, hp, hpc⟩ := List.mem_map.mp hc
      exact List.mem_map.mpr ⟨p, List.mem_of_mem_filter hp, hpc⟩


/-- C9 witness: the refusal at the admin-less relay state, and the
growth property at a registered-admin state. -/
theorem relay_player_refused_without_admin_witness :
    relayStep relayNoAdmin (fun _ => true) (.playerConn 7 "c9") =
      (relayNoAdmin, [.send 7 (.protoError
        "Game session not available yet. Please try again shortly.")]) ∧
    ("c9" ∈ relayWithAdmin.playerConns.map Prod.fst ∨
      (∃ ws a, RStep.playerConn 7 "c9" = .playerConn ws "c9" ∧
        relayWithAdmin.adminWs = some a ∧ relayWithAdmin.adminRegistered = true)) :=
  ⟨relay_player_refused_without_admin.1 relayNoAdmin (fun _ => true) 7 "c9" (Or.inl rfl),
   relay_player_refused_without_admin.2 relayWithAdmin (fun _ => true)
     (.playerConn 7 "c9") "c9" (by decide)⟩

/-- C10: the `Session` constructor applies the card-generation word
validation (via a throwaway `BingoGame`), so every successfully
constructed session stores a word list that cleans to at least 24
unique words — on which card generation and game construction can
never fail — so no later `startGame`, `startNewRound` or late-joiner
deal fails because of the word list. -/
theorem session_wordlist_always_valid (uuid : String) (wl : List String)
    (s : SessionState) (hc : Session.create uuid wl = .ok s) :
    s.wordList = wl ∧
    24 ≤ (cleanWords s.wordList).length ∧
    (∀ (pid : String) (rand : Nat → Nat) (cardUuid : String),
      ∃ c, Card.generate pid s.wordList rand cardUuid = .ok c) ∧
    (∀ sid : String, ∃ g, BingoGame.create sid s.wordList = .ok g) := by
  rw [Session.create, BingoGame.create] at hc
  by_cases hlt : (cleanWords wl).length < 24
  · rw [if_pos hlt] at hc
    cases hc
  · rw [if_neg hlt] at hc
    cases hc
    refine ⟨rfl, ?_, ?_, ?_⟩
    · show 24 ≤ (cleanWords wl).length
      exact Nat.le_of_not_lt hlt

    · intro pid rand cardUuid
      exact ⟨{ id := cardUuid, playerId := pid,
               grid := toRows (flatGrid ((fisherYates rand (cleanWords wl)).take 24)),
               marked := initMarked },
             by rw [Card.generate]; simp only [if_neg hlt]⟩
    · intro sid
      exact ⟨{ sessionId := sid, wordList := wl, status := .waiting,
               currentRound := 0, cards := [], currentWinner := none,
               roundWinners := [] },
             by rw [BingoGame.create]; simp only [if_neg hlt]⟩

/-- C10 witness: the concrete session over `words24`. -/
theorem session_wordlist_always_valid_witness :
    Session.create "sid" words24 = .ok demoSession ∧
    demoSession.wordList = words24 ∧
    24 ≤ (cleanWords demoSession.wordList).length ∧
    (∃ c, Card.generate "p" demoSession.wordList (fun _ => 0) "u" = .ok c) ∧
    (∃ g, BingoGame.create "s" demoSession.wordList = .ok g) := by
  have hc : Session.create "sid" words24 = .ok demoSession := by rfl
  have h := session_wordlist_always_valid "sid" words24 demoSession hc
  exact ⟨hc, h.1, h.2.1, h.2.2.1 "p" (fun _ => 0) "u", h.2.2.2 "s"⟩

end Townhall
